import Mathlib

/-!
Verification of computeSales.py: a shallow embedding of the sales-total
pipeline (catalogue loader, sales loader, aggregator, report writer)
together with proofs about its behaviour.

JSON numbers are modelled as rationals (the idealized decimal semantics of
the numeric values appearing in the files); Python runtime errors that the
program can raise or catch (KeyError, ValueError, TypeError) are modelled
explicitly, and a result of type Except carries an uncaught exception.
-/

/-- Python exception classes that computeSales.py raises or catches. -/
inductive PyErr where
  | keyError (key : String)
  | valueError (msg : String)
  | typeError (msg : String)
  deriving DecidableEq

/-- A parsed JSON document as produced by json.load: null, booleans,
numbers (idealized as rationals), strings, arrays and objects. An object
models a Python dict as an association list with unique keys (json.load
deduplicates keys), looked up by first match. -/
inductive JVal where
  | jnull
  | jbool (b : Bool)
  | jnum (q : ℚ)
  | jstr (s : String)
  | jarr (xs : List JVal)
  | jobj (fields : List (String × JVal))

/-- A hashable Python dict key as used by the catalogue dict. Python
equates True with 1 and False with 0 as keys, so booleans collapse into
numbers; lists and dicts are unhashable and never become keys. -/
inductive PyKey where
  | knull
  | knum (q : ℚ)
  | kstr (s : String)
  deriving DecidableEq

/-- One diagnostic message printed by the program. Each constructor
corresponds to one distinct print statement (f-string) in the source, so
two diagnostics built from different constructors have distinct wording. -/
inductive Diag where
  | fileNotFound (filename : String)
  | invalidJSONFormat (filename : String)
  | invalidProductEntry (e : PyErr)
  | productNotFound (product : JVal)
  | invalidSaleRecord (e : PyErr)

/-- First-match lookup in an object field list (a parsed dict has unique
keys, so first match agrees with dict lookup). -/
def lookupField : List (String × JVal) → String → Option JVal
  | [], _ => Option.none
  | (k, v) :: rest, key => if k = key then Option.some v else lookupField rest key

/-- Models Python subscripting v[key] with a string key: dict lookup
raising KeyError on a missing key, TypeError on any non-dict value. -/
def getItem (v : JVal) (key : String) : Except PyErr JVal :=
  match v with
  | .jobj fields =>
    match lookupField fields key with
    | Option.some w => .ok w
    | Option.none => .error (.keyError key)
  | _ => .error (.typeError ("not subscriptable"))

/-- Value of a list of decimal digit characters. -/
def digitsToNat (ds : List Char) : ℕ :=
  ds.foldl (fun a c => 10 * a + (c.toNat - 48)) 0

/-- Parses a non-empty all-digit character list as a natural number. -/
def parseUnsignedInt (cs : List Char) : Option ℕ :=
  if cs.isEmpty then Option.none
  else if cs.all Char.isDigit then Option.some (digitsToNat cs) else Option.none

/-- Models int(s) on a string: optional surrounding whitespace, optional
sign, then decimal digits only; anything else (including a fractional
literal such as "3.9") raises ValueError. -/
def parseIntString (s : String) : Option ℤ :=
  match s.trim.data with
  | '+' :: rest => (parseUnsignedInt rest).map (fun n => (n : ℤ))
  | '-' :: rest => (parseUnsignedInt rest).map (fun n => -(n : ℤ))
  | cs => (parseUnsignedInt cs).map (fun n => (n : ℤ))

/-- Applies a decimal exponent to a mantissa: m * 10 ^ e over ℚ. -/
def applyExponent (m : ℚ) (e : ℤ) : ℚ :=
  if 0 ≤ e then m * (10 : ℚ) ^ e.toNat else m / (10 : ℚ) ^ (-e).toNat

/-- Parses the optional exponent tail of a float literal (e or E, optional
sign, digits) and applies it to the mantissa m. -/
def parseFloatExpTail (cs : List Char) (m : ℚ) : Option ℚ :=
  match cs with
  | [] => Option.some m
  | 'e' :: rest =>
    match rest with
    | '+' :: ds => (parseUnsignedInt ds).map (fun n => applyExponent m (n : ℤ))
    | '-' :: ds => (parseUnsignedInt ds).map (fun n => applyExponent m (-(n : ℤ)))
    | ds => (parseUnsignedInt ds).map (fun n => applyExponent m (n : ℤ))
  | 'E' :: rest =>
    match rest with
    | '+' :: ds => (parseUnsignedInt ds).map (fun n => applyExponent m (n : ℤ))
    | '-' :: ds => (parseUnsignedInt ds).map (fun n => applyExponent m (-(n : ℤ)))
    | ds => (parseUnsignedInt ds).map (fun n => applyExponent m (n : ℤ))
  | _ => Option.none

/-- Parses an unsigned float literal: digits with an optional dot and
fraction digits (at least one digit overall), then an optional exponent. -/
def parseUnsignedFloat (cs : List Char) : Option ℚ :=
  let ip := cs.takeWhile Char.isDigit
  let rest := cs.dropWhile Char.isDigit
  match rest with
  | '.' :: rest2 =>
    let fp := rest2.takeWhile Char.isDigit
    let rest3 := rest2.dropWhile Char.isDigit
    if ip.isEmpty ∧ fp.isEmpty then Option.none
    else
      parseFloatExpTail rest3
        ((digitsToNat ip : ℚ) + (digitsToNat fp : ℚ) / (10 : ℚ) ^ fp.length)
  | _ =>
    if ip.isEmpty then Option.none
    else parseFloatExpTail rest (digitsToNat ip : ℚ)

/-- Models float(s) on a string: optional surrounding whitespace, optional
sign, then a decimal float literal (the inf, nan and underscore forms,
which the data of this program never uses, are not modelled). -/
def parseFloatString (s : String) : Option ℚ :=
  match s.trim.data with
  | '+' :: rest => parseUnsignedFloat rest
  | '-' :: rest => (parseUnsignedFloat rest).map Neg.neg
  | cs => parseUnsignedFloat cs

/-- Truncation of a rational toward zero, as int() does on a float. -/
def ratTrunc (q : ℚ) : ℤ :=
  Int.tdiv q.num (q.den : ℤ)

/-- Models int(x) on a JSON value: numbers truncate toward zero, strings
must be integer literals (ValueError otherwise), booleans give 0 or 1,
and null, arrays and objects raise TypeError. -/
def pyInt (v : JVal) : Except PyErr ℤ :=
  match v with
  | .jnum q => .ok (ratTrunc q)
  | .jstr s =>
    match parseIntString s with
    | Option.some n => .ok n
    | Option.none => .error (.valueError ("invalid literal for int: " ++ s))
  | .jbool b => .ok (if b then 1 else 0)
  | .jnull => .error (.typeError ("int argument must not be NoneType"))
  | .jarr _ => .error (.typeError ("int argument must not be list"))
  | .jobj _ => .error (.typeError ("int argument must not be dict"))

/-- Models float(x) on a JSON value: numbers pass through, strings must be
float literals (ValueError otherwise), booleans give 0 or 1, and null,
arrays and objects raise TypeError. -/
def pyFloat (v : JVal) : Except PyErr ℚ :=
  match v with
  | .jnum q => .ok q
  | .jstr s =>
    match parseFloatString s with
    | Option.some q => .ok q
    | Option.none => .error (.valueError ("could not convert string to float: " ++ s))
  | .jbool b => .ok (if b then 1 else 0)
  | .jnull => .error (.typeError ("float argument must not be NoneType"))
  | .jarr _ => .error (.typeError ("float argument must not be list"))
  | .jobj _ => .error (.typeError ("float argument must not be dict"))

/-- Models hashing a JSON value for use as a dict key: scalars are
hashable (True and False collapse to 1 and 0), lists and dicts raise
TypeError. -/
def toKey (v : JVal) : Except PyErr PyKey :=
  match v with
  | .jnull => .ok .knull
  | .jbool b => .ok (.knum (if b then 1 else 0))
  | .jnum q => .ok (.knum q)
  | .jstr s => .ok (.kstr s)
  | .jarr _ => .error (.typeError ("unhashable type: list"))
  | .jobj _ => .error (.typeError ("unhashable type: dict"))

/-- Models iterating a JSON value with a for statement: arrays yield their
elements, objects yield their keys, strings yield their one-character
substrings, and numbers, booleans and null raise TypeError. -/
def pyIter (v : JVal) : Except PyErr (List JVal) :=
  match v with
  | .jarr xs => .ok xs
  | .jobj fields => .ok (fields.map (fun f => JVal.jstr f.1))
  | .jstr s => .ok (s.data.map (fun c => JVal.jstr (String.mk [c])))
  | _ => .error (.typeError ("object is not iterable"))

/-- The catalogue dict: insertion-ordered association list from hashable
key to price, with unique keys maintained by dictSet. -/
abbrev Catalogue := List (PyKey × ℚ)

/-- Dict lookup: first matching key (keys are unique by construction). -/
def dictGet : Catalogue → PyKey → Option ℚ
  | [], _ => Option.none
  | (k2, v) :: rest, k => if k2 = k then Option.some v else dictGet rest k

/-- Dict assignment d[k] = v: overwrites the value of an existing key in
place, otherwise appends the new pair at the end (insertion order). -/
def dictSet : Catalogue → PyKey → ℚ → Catalogue
  | [], k, v => [(k, v)]
  | (k2, v2) :: rest, k, v =>
    if k2 = k then (k, v) :: rest else (k2, v2) :: dictSet rest k v

/-- Message of the ValueError raised by the aggregator for a
non-positive quantity. -/
def quantityErrMsg : String := "Quantity must be greater than zero."

/-- Processing of one sale record by the loop body of
compute_total_sales: extract the Product field of the record and the
Quantity field converted by int, raise ValueError if the quantity is not
positive, print a not-found diagnostic and skip if the product is not a
catalogue key, otherwise add price times quantity to the running total.
Every KeyError, ValueError and TypeError is caught and turned into an
invalid-sale-record diagnostic. -/
def processSale (catalogue : Catalogue) (acc : ℚ × List Diag) (sale : JVal) :
    ℚ × List Diag :=
  match getItem sale ("Product") with
  | .error e => (acc.1, acc.2 ++ [Diag.invalidSaleRecord e])
  | .ok product =>
    match getItem sale ("Quantity") with
    | .error e => (acc.1, acc.2 ++ [Diag.invalidSaleRecord e])
    | .ok qval =>
      match pyInt qval with
      | .error e => (acc.1, acc.2 ++ [Diag.invalidSaleRecord e])
      | .ok quantity =>
        if quantity ≤ 0 then
          (acc.1, acc.2 ++ [Diag.invalidSaleRecord (PyErr.valueError quantityErrMsg)])
        else
          match toKey product with
          | .error e => (acc.1, acc.2 ++ [Diag.invalidSaleRecord e])
          | .ok k =>
            match dictGet catalogue k with
            | Option.none => (acc.1, acc.2 ++ [Diag.productNotFound product])
            | Option.some price => (acc.1 + price * (quantity : ℚ), acc.2)

/-- The loop of compute_total_sales over an already-obtained list of
records: fold of processSale starting from total 0 and no diagnostics. -/
def compute_total_sales_list (catalogue : Catalogue) (sales : List JVal) :
    ℚ × List Diag :=
  sales.foldl (processSale catalogue) (0, [])

/-- Models compute_total_sales on the raw sales value: the for statement
first asks for an iterator (an uncaught TypeError on non-iterable values,
since the try block sits inside the loop body), then folds processSale
over the records. -/
def compute_total_sales (catalogue : Catalogue) (sales : JVal) :
    Except PyErr (ℚ × List Diag) :=
  match pyIter sales with
  | .error e => .error e
  | .ok records => .ok (compute_total_sales_list catalogue records)

/-- Processing of one catalogue element by the loop body of
load_product_catalogue: extract the title field of the item and the
price field converted by float, then assign the price to the title key
(hashing the title). Every KeyError, ValueError and TypeError is caught
and turned into an invalid-product-entry diagnostic. -/
def processCatalogueItem (acc : Catalogue × List Diag) (item : JVal) :
    Catalogue × List Diag :=
  match getItem item ("title") with
  | .error e => (acc.1, acc.2 ++ [Diag.invalidProductEntry e])
  | .ok title =>
    match getItem item ("price") with
    | .error e => (acc.1, acc.2 ++ [Diag.invalidProductEntry e])
    | .ok pval =>
      match pyFloat pval with
      | .error e => (acc.1, acc.2 ++ [Diag.invalidProductEntry e])
      | .ok price =>
        match toKey title with
        | .error e => (acc.1, acc.2 ++ [Diag.invalidProductEntry e])
        | .ok k => (dictSet acc.1 k price, acc.2)

/-- How a file read plus json.load can turn out: the file is missing
(FileNotFoundError), its content is not well-formed JSON
(json.JSONDecodeError), or it parses to a JSON document. -/
inductive FileInput where
  | missing
  | invalidJSON
  | parsed (v : JVal)

/-- Models load_product_catalogue: on a missing file or malformed JSON it
prints a diagnostic and returns the empty dict; on a parsed document it
iterates the document (an uncaught TypeError on non-iterable documents,
since the outer handlers cover only FileNotFoundError and JSONDecodeError)
folding processCatalogueItem from the empty dict. -/
def load_product_catalogue (filename : String) (input : FileInput) :
    Except PyErr (Catalogue × List Diag) :=
  match input with
  | .missing => .ok ([], [Diag.fileNotFound filename])
  | .invalidJSON => .ok ([], [Diag.invalidJSONFormat filename])
  | .parsed v =>
    match pyIter v with
    | .error e => .error e
    | .ok items => .ok (items.foldl processCatalogueItem ([], []))

/-- Models load_sales: returns the parsed document verbatim, or the empty
list with a diagnostic on a missing file or malformed JSON. -/
def load_sales (filename : String) (input : FileInput) : JVal × List Diag :=
  match input with
  | .missing => (.jarr [], [Diag.fileNotFound filename])
  | .invalidJSON => (.jarr [], [Diag.invalidJSONFormat filename])
  | .parsed v => (v, [])

/-- Rounding of a rational to the nearest integer with ties going to the
even integer, the rounding used by Python fixed-point formatting
(idealized to exact decimal values). -/
def ratRoundHalfEven (q : ℚ) : ℤ :=
  let f : ℤ := ⌊q⌋
  let twice : ℚ := 2 * (q - (f : ℚ))
  if twice < 1 then f
  else if 1 < twice then f + 1
  else if f % 2 = 0 then f else f + 1

/-- The last k decimal digits of n, most significant first, zero padded
to exactly k characters. -/
def fracDigitChars (n : ℕ) : ℕ → List Char
  | 0 => []
  | k + 1 => fracDigitChars (n / 10) k ++ [Char.ofNat (48 + n % 10)]

/-- Fixed-point formatting of a rational with prec fraction digits, as an
f-string format specifier .2f or .6f renders a number: round half to even
at the last digit, then integer part, a dot, and exactly prec fraction
digits. -/
def formatFixed (q : ℚ) (prec : ℕ) : String :=
  let scaled : ℤ := ratRoundHalfEven (q * (10 : ℚ) ^ prec)
  let sign : String := if scaled < 0 then "-" else ("")
  let n : ℕ := scaled.natAbs
  (sign ++ toString (n / 10 ^ prec)) ++ "." ++ String.mk (fracDigitChars n prec)

/-- The four lines save_results writes to SalesResults.txt: title,
separator, total with two fraction digits after a dollar sign, elapsed
time with six fraction digits before the word seconds. -/
def save_results (total : ℚ) (elapsed_time : ℚ) : List String :=
  ["Sales Results",
   "----------------------------",
   "Total sales amount: $" ++ formatFixed total 2,
   "Execution time: " ++ formatFixed elapsed_time 6 ++ " seconds"]

/-- The lines main prints to standard output for the report: the first
print statement starts with a newline, so the echoed report is preceded
by a blank line. -/
def main_report_lines (total : ℚ) (elapsed_time : ℚ) : List String :=
  ["",
   "Sales Results",
   "----------------------------",
   "Total sales amount: $" ++ formatFixed total 2,
   "Execution time: " ++ formatFixed elapsed_time 6 ++ " seconds"]

/-- Modelled from the specification text of the aggregator invariant: the
contribution of a single sale record to the total, which is price times
quantity when the record has a Product field and an integer-convertible
Quantity field, the quantity is positive and the product is a key of the
catalogue, and zero otherwise. -/
def specContribution (catalogue : Catalogue) (sale : JVal) : ℚ :=
  match getItem sale ("Product") with
  | .error _ => 0
  | .ok product =>
    match getItem sale ("Quantity") with
    | .error _ => 0
    | .ok qval =>
      match pyInt qval with
      | .error _ => 0
      | .ok quantity =>
        if 0 < quantity then
          match toKey product with
          | .error _ => 0
          | .ok k =>
            match dictGet catalogue k with
            | Option.some price => price * (quantity : ℚ)
            | Option.none => 0
        else 0

/-- Modelled from the specification text: the total as the sum of the
per-record contributions over the sales list. -/
def specTotal (catalogue : Catalogue) (sales : List JVal) : ℚ :=
  (sales.map (specContribution catalogue)).sum

/-- A sale record that is valid and matching: both fields extract, the
quantity converts to a positive integer, and the product is a key of the
catalogue. -/
def validMatchingSale (catalogue : Catalogue) (sale : JVal) : Bool :=
  match getItem sale ("Product") with
  | .error _ => false
  | .ok product =>
    match getItem sale ("Quantity") with
    | .error _ => false
    | .ok qval =>
      match pyInt qval with
      | .error _ => false
      | .ok quantity =>
        decide (0 < quantity) &&
          (match toKey product with
           | .error _ => false
           | .ok k => (dictGet catalogue k).isSome)

/-- The key and price a catalogue element yields when it is valid: the
title and price fields extract, the price converts by float, and the
title is hashable. -/
def entryParse (item : JVal) : Option (PyKey × ℚ) :=
  match getItem item ("title") with
  | .error _ => Option.none
  | .ok title =>
    match getItem item ("price") with
    | .error _ => Option.none
    | .ok pval =>
      match pyFloat pval with
      | .error _ => Option.none
      | .ok price =>
        match toKey title with
        | .error _ => Option.none
        | .ok k => Option.some (k, price)

/-- Modelled from the specification text of last-write-wins: the price of
the latest entry in a key-value list that carries the given key. -/
def lastPriceIn : List (PyKey × ℚ) → PyKey → Option ℚ
  | [], _ => Option.none
  | kv :: rest, k =>
    (lastPriceIn rest k).or (if kv.1 = k then Option.some kv.2 else Option.none)

/-- Folding dict assignments of a key-value list into a catalogue. -/
def catFold (d : Catalogue) (kvs : List (PyKey × ℚ)) : Catalogue :=
  kvs.foldl (fun c kv => dictSet c kv.1 kv.2) d

/-- Discriminates the not-found diagnostic from every other diagnostic. -/
def isProductNotFound : Diag → Bool
  | .productNotFound _ => true
  | _ => false

theorem processSale_fst (C : Catalogue) (acc : ℚ × List Diag) (s : JVal) :
    (processSale C acc s).1 = acc.1 + specContribution C s := by
  unfold processSale specContribution
  cases getItem s ("Product") with
  | error e => simp
  | ok product =>
    dsimp only
    cases getItem s ("Quantity") with
    | error e => simp
    | ok qval =>
      dsimp only
      cases pyInt qval with
      | error e => simp
      | ok quantity =>
        dsimp only
        by_cases hpos : quantity ≤ 0
        · rw [if_pos hpos, if_neg (not_lt.mpr hpos)]
          simp
        · rw [if_neg hpos, if_pos (not_le.mp hpos)]
          cases toKey product with
          | error e => simp
          | ok k =>
            dsimp only
            cases dictGet C k with
            | none => simp
            | some price => simp

theorem foldl_processSale_fst (C : Catalogue) (S : List JVal) :
    ∀ acc : ℚ × List Diag,
      (S.foldl (processSale C) acc).1 = acc.1 + specTotal C S := by
  induction S with
  | nil => intro acc; simp [specTotal]
  | cons s rest ih =>
    intro acc
    rw [List.foldl_cons, ih, processSale_fst]
    simp [specTotal, add_assoc]

theorem total_list_eq_specTotal (C : Catalogue) (S : List JVal) :
    (compute_total_sales_list C S).1 = specTotal C S := by
  simpa using foldl_processSale_fst C S (0, [])

theorem specTotal_append (C : Catalogue) (S1 S2 : List JVal) :
    specTotal C (S1 ++ S2) = specTotal C S1 + specTotal C S2 := by
  simp [specTotal]

theorem dictGet_mem {C : Catalogue} {k : PyKey} {v : ℚ}
    (h : dictGet C k = Option.some v) : (k, v) ∈ C := by
  induction C with
  | nil => simp [dictGet] at h
  | cons kv rest ih =>
    obtain ⟨k1, v1⟩ := kv
    rw [dictGet] at h
    by_cases he : k1 = k
    · subst he
      rw [if_pos rfl] at h
      cases h
      exact List.mem_cons_self _ _
    · rw [if_neg he] at h
      exact List.mem_cons_of_mem _ (ih h)

theorem specContribution_nonneg {C : Catalogue} (s : JVal)
    (h : ∀ kv ∈ C, 0 ≤ kv.2) : 0 ≤ specContribution C s := by
  unfold specContribution
  cases getItem s ("Product") with
  | error e => simp
  | ok product =>
    dsimp only
    cases getItem s ("Quantity") with
    | error e => simp
    | ok qval =>
      dsimp only
      cases pyInt qval with
      | error e => simp
      | ok quantity =>
        dsimp only
        by_cases hpos : 0 < quantity
        · rw [if_pos hpos]
          cases toKey product with
          | error e => simp
          | ok k =>
            dsimp only
            cases hd : dictGet C k with
            | none => simp
            | some price =>
              have hpm : (k, price) ∈ C := dictGet_mem hd
              have hp : (0 : ℚ) ≤ price := h _ hpm
              have hqn : (0 : ℚ) ≤ (quantity : ℚ) := by
                exact_mod_cast le_of_lt hpos
              exact mul_nonneg hp hqn
        · rw [if_neg hpos]

theorem specTotal_nonneg {C : Catalogue} (S : List JVal)
    (h : ∀ kv ∈ C, 0 ≤ kv.2) : 0 ≤ specTotal C S := by
  induction S with
  | nil => simp [specTotal]
  | cons s rest ih =>
    have h1 : 0 ≤ specContribution C s := specContribution_nonneg s h
    have h2 : specTotal C (s :: rest) = specContribution C s + specTotal C rest := by
      simp [specTotal]
    rw [h2]
    positivity

theorem specContribution_nil (s : JVal) : specContribution [] s = 0 := by
  unfold specContribution
  cases getItem s ("Product") with
  | error e => rfl
  | ok product =>
    dsimp only
    cases getItem s ("Quantity") with
    | error e => rfl
    | ok qval =>
      dsimp only
      cases pyInt qval with
      | error e => rfl
      | ok quantity =>
        dsimp only
        by_cases hpos : 0 < quantity
        · rw [if_pos hpos]
          cases toKey product with
          | error e => rfl
          | ok k => rfl
        · rw [if_neg hpos]

theorem dictGet_dictSet (d : Catalogue) (k : PyKey) (v : ℚ) (k2 : PyKey) :
    dictGet (dictSet d k v) k2 = if k = k2 then Option.some v else dictGet d k2 := by
  induction d with
  | nil => simp [dictSet, dictGet]
  | cons kv rest ih =>
    obtain ⟨k1, v1⟩ := kv
    by_cases h1 : k1 = k
    · subst h1
      by_cases h2 : k1 = k2
      · subst h2
        simp [dictSet, dictGet]
      · have h3 : ¬(k1 = k2) := h2
        simp [dictSet, dictGet, h3]
    · by_cases h2 : k1 = k2
      · subst h2
        have h3 : ¬(k = k1) := fun heq => h1 heq.symm
        simp [dictSet, dictGet, h1, h3]
      · simp [dictSet, dictGet, h1, h2, ih]

theorem mem_keys_dictSet {d : Catalogue} {k : PyKey} {v : ℚ} {a : PyKey}
    (h : a ∈ (dictSet d k v).map Prod.fst) : a ∈ d.map Prod.fst ∨ a = k := by
  induction d with
  | nil =>
    rw [dictSet] at h
    simp only [List.map_cons, List.map_nil, List.mem_cons, List.not_mem_nil,
      or_false] at h
    exact Or.inr h
  | cons kv rest ih =>
    obtain ⟨k1, v1⟩ := kv
    simp only [List.map_cons, List.mem_cons]
    by_cases h1 : k1 = k
    · subst h1
      rw [dictSet, if_pos rfl] at h
      simp only [List.map_cons, List.mem_cons] at h
      rcases h with h | h
      · exact Or.inr h
      · exact Or.inl (Or.inr h)
    · rw [dictSet, if_neg h1] at h
      simp only [List.map_cons, List.mem_cons] at h
      rcases h with h | h
      · exact Or.inl (Or.inl h)
      · rcases ih h with h2 | h2
        · exact Or.inl (Or.inr h2)
        · exact Or.inr h2

theorem dictSet_nodup {d : Catalogue} {k : PyKey} {v : ℚ}
    (h : (d.map Prod.fst).Nodup) : ((dictSet d k v).map Prod.fst).Nodup := by
  induction d with
  | nil => simp [dictSet]
  | cons kv rest ih =>
    obtain ⟨k1, v1⟩ := kv
    simp only [List.map_cons, List.nodup_cons] at h
    obtain ⟨hnotin, hnd⟩ := h
    by_cases h1 : k1 = k
    · subst h1
      rw [dictSet, if_pos rfl]
      simp only [List.map_cons, List.nodup_cons]
      exact ⟨hnotin, hnd⟩
    · rw [dictSet, if_neg h1]
      simp only [List.map_cons, List.nodup_cons]
      refine ⟨fun hmem => ?_, ih hnd⟩
      rcases mem_keys_dictSet hmem with h2 | h2
      · exact hnotin h2
      · exact h1 h2

theorem dictGet_catFold (kvs : List (PyKey × ℚ)) (k : PyKey) :
    ∀ d : Catalogue,
      dictGet (catFold d kvs) k = (lastPriceIn kvs k).or (dictGet d k) := by
  induction kvs with
  | nil => intro d; simp [catFold, lastPriceIn]
  | cons kv rest ih =>
    intro d
    have hstep : catFold d (kv :: rest) = catFold (dictSet d kv.1 kv.2) rest := by
      simp [catFold]
    rw [hstep, ih, lastPriceIn, dictGet_dictSet]
    cases lastPriceIn rest k with
    | none =>
      by_cases h1 : kv.1 = k
      · simp [h1, Option.or]
      · simp [h1, Option.or]
    | some p => simp [Option.or]

theorem catFold_nodup (kvs : List (PyKey × ℚ)) :
    ∀ d : Catalogue, (d.map Prod.fst).Nodup →
      ((catFold d kvs).map Prod.fst).Nodup := by
  induction kvs with
  | nil => intro d h; simpa [catFold] using h
  | cons kv rest ih =>
    intro d h
    have hstep : catFold d (kv :: rest) = catFold (dictSet d kv.1 kv.2) rest := by
      simp [catFold]
    rw [hstep]
    exact ih _ (dictSet_nodup h)

theorem processCatalogueItem_fst (acc : Catalogue × List Diag) (item : JVal) :
    (processCatalogueItem acc item).1 =
      (match entryParse item with
       | Option.some kv => dictSet acc.1 kv.1 kv.2
       | Option.none => acc.1) := by
  unfold processCatalogueItem entryParse
  cases getItem item ("title") with
  | error e => simp
  | ok title =>
    dsimp only
    cases getItem item ("price") with
    | error e => simp
    | ok pval =>
      dsimp only
      cases pyFloat pval with
      | error e => simp
      | ok price =>
        dsimp only
        cases toKey title with
        | error e => simp
        | ok k => simp

theorem foldl_processCatalogueItem_fst (items : List JVal) :
    ∀ acc : Catalogue × List Diag,
      (items.foldl processCatalogueItem acc).1 =
        catFold acc.1 (items.filterMap entryParse) := by
  induction items with
  | nil => intro acc; simp [catFold]
  | cons item rest ih =>
    intro acc
    rw [List.foldl_cons, ih]
    cases he : entryParse item with
    | none =>
      have h1 : (processCatalogueItem acc item).1 = acc.1 := by
        rw [processCatalogueItem_fst, he]
      rw [h1]
      simp only [List.filterMap_cons, he]
    | some kv =>
      have h1 : (processCatalogueItem acc item).1 = dictSet acc.1 kv.1 kv.2 := by
        rw [processCatalogueItem_fst, he]
      rw [h1]
      simp only [List.filterMap_cons, he]
      simp [catFold]

theorem fracDigitChars_length (k : ℕ) :
    ∀ n : ℕ, (fracDigitChars n k).length = k := by
  induction k with
  | zero => intro n; simp [fracDigitChars]
  | succ k ih => intro n; simp [fracDigitChars, ih]

/-- C1: for every catalogue mapping and every list of sale records,
compute_total_sales returns exactly the sum, over the records that have a
Product field and an integer-convertible Quantity field with positive
quantity and whose product is a key of the catalogue, of the catalogue
price times the quantity; every other record contributes nothing. -/
theorem compute_total_matches_spec_sum (C : Catalogue) (S : List JVal) :
    compute_total_sales C (.jarr S) = .ok (compute_total_sales_list C S) ∧
    (compute_total_sales_list C S).1 = specTotal C S :=
  ⟨rfl, total_list_eq_specTotal C S⟩

/-- C2 counterexample: with the sales document the JSON number 5 — a
value load_sales returns verbatim when the file contains just 5 —
compute_total_sales does not return normally: the for statement raises an
uncaught TypeError before any per-record handler is reached. -/
theorem compute_total_on_number_uncaught :
    compute_total_sales [(PyKey.kstr ("Widget"), 5 / 2)] (.jnum 5) =
      .error (.typeError ("object is not iterable")) := by
  with_unfolding_all rfl

/-- C2 amended: for every catalogue and every sales value that is
iterable — every JSON array in particular — compute_total_sales returns
normally: each per-record error is caught inside the loop, and the result
is the fold of the record processor over the yielded records. -/
theorem compute_total_ok_on_iterable (C : Catalogue) (v : JVal)
    (records : List JVal) (h : pyIter v = .ok records) :
    compute_total_sales C v = .ok (compute_total_sales_list C records) := by
  unfold compute_total_sales
  rw [h]

/-- Witness for the amended C2 at a concrete array input. -/
theorem compute_total_ok_on_iterable_witness :
    compute_total_sales [] (.jarr [.jnum 1]) =
      .ok (compute_total_sales_list [] [.jnum 1]) :=
  compute_total_ok_on_iterable [] (.jarr [.jnum 1]) [.jnum 1] rfl

/-- C9: a well-formed catalogue document whose top-level value is not
iterable — the documents 5, true and null — makes load_product_catalogue
raise an uncaught TypeError at the iteration over the parsed value
instead of printing a diagnostic and returning a mapping: the file-level
handlers cover only the missing-file and JSON-decoding failures, and the
per-element handler sits inside the loop body. -/
theorem catalogue_noniterable_uncaught :
    load_product_catalogue ("priceCatalogue.json") (.parsed (.jnum 5)) =
      .error (.typeError ("object is not iterable")) ∧
    load_product_catalogue ("priceCatalogue.json") (.parsed (.jbool true)) =
      .error (.typeError ("object is not iterable")) ∧
    load_product_catalogue ("priceCatalogue.json") (.parsed .jnull) =
      .error (.typeError ("object is not iterable")) :=
  ⟨rfl, rfl, rfl⟩

/-- C3: with a valid catalogue — all prices non-negative — the computed
total is non-negative, and appending one additional valid matching sale
record to the sales list never decreases it. -/
theorem total_nonneg_and_monotone (C : Catalogue) (S : List JVal) (s : JVal)
    (hprices : ∀ kv ∈ C, 0 ≤ kv.2)
    (_hvalid : validMatchingSale C s = true) :
    0 ≤ (compute_total_sales_list C S).1 ∧
    (compute_total_sales_list C S).1 ≤
      (compute_total_sales_list C (S ++ [s])).1 := by
  constructor
  · rw [total_list_eq_specTotal]
    exact specTotal_nonneg S hprices
  · rw [total_list_eq_specTotal, total_list_eq_specTotal, specTotal_append]
    have h1 : 0 ≤ specTotal C [s] := specTotal_nonneg [s] hprices
    linarith

/-- Witness for C3 at a concrete catalogue, sales list and record. -/
theorem total_nonneg_and_monotone_witness :
    0 ≤ (compute_total_sales_list [(PyKey.kstr ("Widget"), 2)] []).1 ∧
    (compute_total_sales_list [(PyKey.kstr ("Widget"), 2)] []).1 ≤
      (compute_total_sales_list [(PyKey.kstr ("Widget"), 2)]
        ([] ++ [.jobj [("Product", .jstr ("Widget")), ("Quantity", .jnum 3)]])).1 :=
  total_nonneg_and_monotone [(PyKey.kstr ("Widget"), 2)] []
    (.jobj [("Product", .jstr ("Widget")), ("Quantity", .jnum 3)])
    (by intro kv hkv
        rcases List.mem_singleton.mp hkv with rfl
        decide)
    (by with_unfolding_all rfl)

/-- C4 counterexample: the catalogue loader recovers from a missing file
with an empty mapping, but feeding that empty mapping through
compute_total_sales together with the sales document true — a value the
sales loader can return — raises an uncaught TypeError instead of
yielding a total of 0, so the total is not 0 regardless of the other
input. -/
theorem empty_catalogue_not_always_zero :
    load_product_catalogue ("priceCatalogue.json") .missing =
      .ok ([], [Diag.fileNotFound ("priceCatalogue.json")]) ∧
    compute_total_sales [] (.jbool true) =
      .error (.typeError ("object is not iterable")) :=
  ⟨rfl, rfl⟩

/-- C4 amended: on a missing file or malformed JSON the catalogue loader
prints a diagnostic and returns the empty mapping and the sales loader
prints a diagnostic and returns the empty sequence; the empty sales
sequence gives a total of 0 with every catalogue, and the empty catalogue
gives a total of 0 with every sales list. -/
theorem loaders_fail_safe (fn : String) (C : Catalogue) (S : List JVal) :
    load_product_catalogue fn .missing = .ok ([], [Diag.fileNotFound fn]) ∧
    load_product_catalogue fn .invalidJSON =
      .ok ([], [Diag.invalidJSONFormat fn]) ∧
    load_sales fn .missing = (.jarr [], [Diag.fileNotFound fn]) ∧
    load_sales fn .invalidJSON = (.jarr [], [Diag.invalidJSONFormat fn]) ∧
    compute_total_sales C (.jarr []) = .ok (0, []) ∧
    (compute_total_sales_list [] S).1 = 0 := by
  refine ⟨rfl, rfl, rfl, rfl, rfl, ?_⟩
  rw [total_list_eq_specTotal]
  induction S with
  | nil => simp [specTotal]
  | cons s rest ih =>
    have h2 : specTotal [] (s :: rest) =
        specContribution [] s + specTotal [] rest := by
      simp [specTotal]
    rw [h2, specContribution_nil, ih, add_zero]

/-- C5: the catalogue built from a parsed input array maps every key to
the price of the latest valid entry of the array carrying that title
(last-write-wins, so with two or more valid entries sharing a title the
one occurring latest supplies the price), and the keys of the returned
mapping are unique. -/
theorem catalogue_last_write_wins (fn : String) (items : List JVal) (k : PyKey) :
    ∃ ds : List Diag,
      load_product_catalogue fn (.parsed (.jarr items)) =
        .ok ((items.foldl processCatalogueItem ([], [])).1, ds) ∧
      dictGet (items.foldl processCatalogueItem ([], [])).1 k =
        lastPriceIn (items.filterMap entryParse) k ∧
      (((items.foldl processCatalogueItem ([], [])).1).map Prod.fst).Nodup := by
  refine ⟨(items.foldl processCatalogueItem ([], [])).2, rfl, ?_, ?_⟩
  · rw [foldl_processCatalogueItem_fst, dictGet_catFold]
    simp [dictGet]
  · rw [foldl_processCatalogueItem_fst]
    exact catFold_nodup _ _ (by simp)

/-- C6 counterexample: a record whose Product field extracts successfully
(here a JSON array), whose quantity is 1, and whose product is not a key
of the catalogue is reported with the malformed-record diagnostic — the
membership test raises TypeError on the unhashable product, caught by the
per-record handler — and not with the not-found diagnostic the claim
requires. -/
theorem unhashable_product_invalid_diag :
    processSale [(PyKey.kstr ("A"), 1)] (0, [])
      (.jobj [("Product", .jarr []), ("Quantity", .jnum 1)]) =
      (0, [Diag.invalidSaleRecord (.typeError ("unhashable type: list"))]) ∧
    isProductNotFound
      (Diag.invalidSaleRecord (.typeError ("unhashable type: list"))) = false := by
  constructor
  · with_unfolding_all rfl
  · rfl

/-- C6 amended: for every sale record whose Product and Quantity fields
extract successfully with positive quantity and whose product is hashable
but not a key of the catalogue, processing emits the not-found diagnostic
— whose wording is distinct from the malformed-record diagnostic — skips
the record without raising, and leaves the running total unchanged. -/
theorem product_not_found_diagnostic (C : Catalogue) (t : ℚ) (ds : List Diag)
    (s p qv : JVal) (q : ℤ) (k : PyKey)
    (hp : getItem s ("Product") = .ok p)
    (hq : getItem s ("Quantity") = .ok qv)
    (hi : pyInt qv = .ok q)
    (hpos : 0 < q)
    (hk : toKey p = .ok k)
    (hnf : dictGet C k = Option.none) :
    processSale C (t, ds) s = (t, ds ++ [Diag.productNotFound p]) ∧
    isProductNotFound (Diag.productNotFound p) = true ∧
    (∀ e : PyErr, Diag.productNotFound p ≠ Diag.invalidSaleRecord e) := by
  refine ⟨?_, rfl, fun e h => Diag.noConfusion h⟩
  unfold processSale
  rw [hp]
  dsimp only
  rw [hq]
  dsimp only
  rw [hi]
  dsimp only
  rw [if_neg (not_le.mpr hpos), hk]
  dsimp only
  rw [hnf]

/-- Witness for the amended C6 at a concrete record and catalogue. -/
theorem product_not_found_diagnostic_witness :
    processSale [(PyKey.kstr ("Widget"), 2)] (0, [])
      (.jobj [("Product", .jstr ("Unknown")), ("Quantity", .jnum 1)]) =
      (0, [] ++ [Diag.productNotFound (.jstr ("Unknown"))]) ∧
    isProductNotFound (Diag.productNotFound (.jstr ("Unknown"))) = true ∧
    (∀ e : PyErr,
      Diag.productNotFound (.jstr ("Unknown")) ≠ Diag.invalidSaleRecord e) :=
  product_not_found_diagnostic [(PyKey.kstr ("Widget"), 2)] 0 []
    (.jobj [("Product", .jstr ("Unknown")), ("Quantity", .jnum 1)])
    (.jstr ("Unknown")) (.jnum 1) 1 (PyKey.kstr ("Unknown"))
    (by with_unfolding_all rfl) (by with_unfolding_all rfl)
    (by with_unfolding_all rfl) (by decide)
    (by with_unfolding_all rfl) (by with_unfolding_all rfl)

/-- C7: a sale record whose Quantity converts to a non-positive integer
is skipped with the diagnostic naming the reason — the ValueError message
that the quantity must be greater than zero — and contributes nothing to
the total wherever it sits in the sales list, processing continuing with
the surrounding records. -/
theorem nonpositive_quantity_skipped (C : Catalogue) (t : ℚ) (ds : List Diag)
    (s p qv : JVal) (q : ℤ) (S1 S2 : List JVal)
    (hp : getItem s ("Product") = .ok p)
    (hq : getItem s ("Quantity") = .ok qv)
    (hi : pyInt qv = .ok q)
    (hnp : q ≤ 0) :
    processSale C (t, ds) s =
      (t, ds ++ [Diag.invalidSaleRecord (PyErr.valueError quantityErrMsg)]) ∧
    (compute_total_sales_list C (S1 ++ s :: S2)).1 =
      (compute_total_sales_list C (S1 ++ S2)).1 := by
  have hcontrib : specContribution C s = 0 := by
    unfold specContribution
    rw [hp]
    dsimp only
    rw [hq]
    dsimp only
    rw [hi]
    dsimp only
    rw [if_neg (not_lt.mpr hnp)]
  constructor
  · unfold processSale
    rw [hp]
    dsimp only
    rw [hq]
    dsimp only
    rw [hi]
    dsimp only
    rw [if_pos hnp]
  · rw [total_list_eq_specTotal, total_list_eq_specTotal]
    have hsplit : S1 ++ s :: S2 = S1 ++ [s] ++ S2 := by simp
    rw [hsplit, specTotal_append, specTotal_append, specTotal_append]
    have hone : specTotal C [s] = 0 := by
      simp [specTotal, hcontrib]
    rw [hone, add_zero]

/-- Witness for C7 at a concrete record with quantity zero. -/
theorem nonpositive_quantity_skipped_witness :
    processSale [(PyKey.kstr ("Widget"), 2)] (0, [])
      (.jobj [("Product", .jstr ("Widget")), ("Quantity", .jnum 0)]) =
      (0, [] ++ [Diag.invalidSaleRecord (PyErr.valueError quantityErrMsg)]) ∧
    (compute_total_sales_list [(PyKey.kstr ("Widget"), 2)]
        ([] ++ .jobj [("Product", .jstr ("Widget")), ("Quantity", .jnum 0)] :: [])).1 =
      (compute_total_sales_list [(PyKey.kstr ("Widget"), 2)] ([] ++ [])).1 :=
  nonpositive_quantity_skipped [(PyKey.kstr ("Widget"), 2)] 0 []
    (.jobj [("Product", .jstr ("Widget")), ("Quantity", .jnum 0)])
    (.jstr ("Widget")) (.jnum 0) 0 [] []
    (by with_unfolding_all rfl) (by with_unfolding_all rfl)
    (by with_unfolding_all rfl) (by decide)

/-- C8: save_results produces exactly the four report lines — the title,
the separator, the total with exactly two fraction digits after the
dollar sign, and the elapsed time with exactly six fraction digits before
the word seconds — and main echoes the same four lines to standard
output preceded by a blank line. -/
theorem report_four_lines (t e : ℚ) :
    save_results t e =
      ["Sales Results",
       "----------------------------",
       "Total sales amount: $" ++ formatFixed t 2,
       "Execution time: " ++ formatFixed e 6 ++ " seconds"] ∧
    (save_results t e).length = 4 ∧
    main_report_lines t e = "" :: save_results t e ∧
    (∃ ipart : String, ∃ frac : List Char,
       formatFixed t 2 = ipart ++ "." ++ String.mk frac ∧ frac.length = 2) ∧
    (∃ ipart : String, ∃ frac : List Char,
       formatFixed e 6 = ipart ++ "." ++ String.mk frac ∧ frac.length = 6) := by
  refine ⟨rfl, rfl, rfl, ?_, ?_⟩
  · exact ⟨_, _, rfl, fracDigitChars_length 2 _⟩
  · exact ⟨_, _, rfl, fracDigitChars_length 6 _⟩

/-- C10: a sale record whose Quantity is a JSON number with a fractional
part and whose product is in the catalogue is not rejected as
non-integer: int truncates the quantity toward zero, a positive truncated
value is accepted contributing price times the truncated quantity, and a
truncated value of zero or below (every fractional quantity below 1 in
particular) is skipped as invalid. -/
theorem fractional_quantity_truncates (C : Catalogue) (t : ℚ) (ds : List Diag)
    (s : JVal) (p : String) (q : ℚ) (price : ℚ)
    (hp : getItem s ("Product") = .ok (.jstr p))
    (hq : getItem s ("Quantity") = .ok (.jnum q))
    (hfound : dictGet C (PyKey.kstr p) = Option.some price) :
    pyInt (.jnum q) = .ok (ratTrunc q) ∧
    (0 < ratTrunc q →
      processSale C (t, ds) s = (t + price * ((ratTrunc q : ℤ) : ℚ), ds)) ∧
    (ratTrunc q ≤ 0 →
      processSale C (t, ds) s =
        (t, ds ++ [Diag.invalidSaleRecord (PyErr.valueError quantityErrMsg)])) := by
  refine ⟨rfl, ?_, ?_⟩
  · intro hpos
    unfold processSale
    rw [hp]
    dsimp only
    rw [hq]
    dsimp only
    simp only [pyInt]
    rw [if_neg (not_le.mpr hpos)]
    simp only [toKey]
    rw [hfound]
  · intro hnp
    unfold processSale
    rw [hp]
    dsimp only
    rw [hq]
    dsimp only
    simp only [pyInt]
    rw [if_pos hnp]

/-- Witness for C10: quantity 3.9 truncates to 3 and contributes three
times the price. -/
theorem fractional_quantity_truncates_witness :
    processSale [(PyKey.kstr ("W"), 2)] (0, [])
      (.jobj [("Product", .jstr ("W")), ("Quantity", .jnum (39 / 10))]) =
      (0 + 2 * ((ratTrunc (39 / 10) : ℤ) : ℚ), []) :=
  (fractional_quantity_truncates [(PyKey.kstr ("W"), 2)] 0 []
    (.jobj [("Product", .jstr ("W")), ("Quantity", .jnum (39 / 10))])
    ("W") (39 / 10) 2
    (by with_unfolding_all rfl) (by with_unfolding_all rfl)
    (by with_unfolding_all rfl)).2.1 (by with_unfolding_all decide)
